import Mathlib

/-!
Shallow embedding of the trender analytics pipeline (src/workflows) and
proofs about its scoring, orchestration, API-client and load logic.

Conventions used throughout:
* Python dict fields that may be missing or None are modeled as `Option`.
* Timestamps are integers (UTC seconds); `timedelta.days` is floor
  division by 86400, i.e. `Int.fdiv`.
* All real-valued scores are modeled as rationals (`ℚ`); Python's
  `round(x, 2)` (round half to even) is `pyRound2`.
* Python truthiness of a field value is modeled per type: `None` and the
  empty string are falsy for strings, `None` and `0` are falsy for
  integers, datetime objects are always truthy.
-/

/-- Python truthiness of an optional string: None and the empty string are falsy. -/
def optStrTruthy : Option String → Bool
  | none => false
  | some s => !(s == "")

/-- Python truthiness of an optional integer: None and 0 are falsy. -/
def optIntTruthy : Option Int → Bool
  | none => false
  | some n => !(n == 0)

/-- Python truthiness of an optional timestamp: None is falsy, any datetime is truthy. -/
def optTsTruthy : Option Int → Bool
  | none => false
  | some _ => true

/-- Python's round(x, 2): scale by 100 and round half to even, over the rationals. -/
def pyRound2 (q : ℚ) : ℚ :=
  let scaled : ℚ := q * 100
  let fl : ℤ := ⌊scaled⌋
  let frac : ℚ := scaled - (fl : ℚ)
  let r : ℤ :=
    if frac < 1/2 then fl
    else if 1/2 < frac then fl + 1
    else if fl % 2 = 0 then fl else fl + 1
  (r : ℚ) / 100

/-- A repository record as passed to the data-quality scorer
(src/workflows/etl/data_quality.py).  Every field the scorer reads is
optional, mirroring dict.get; timestamps are pre-parsed UTC seconds
(an unparseable timestamp string behaves like an absent one). -/
structure Repo where
  repo_full_name : Option String := none
  repo_url : Option String := none
  language : Option String := none
  stars : Option Int := none
  created_at : Option Int := none
  updated_at : Option Int := none
  description : Option String := none
  forks : Option Int := none
  open_issues : Option Int := none
  commits_last_7_days : Option Int := none
  active_contributors : Option Int := none

/-- Truthiness flags of the six required fields of calculate_completeness_score. -/
def requiredFieldFlags (repo : Repo) : List Bool :=
  [optStrTruthy repo.repo_full_name, optStrTruthy repo.repo_url,
   optStrTruthy repo.language, optIntTruthy repo.stars,
   optTsTruthy repo.created_at, optTsTruthy repo.updated_at]

/-- Truthiness flags of the five optional fields of calculate_completeness_score. -/
def optionalFieldFlags (repo : Repo) : List Bool :=
  [optStrTruthy repo.description, optIntTruthy repo.forks,
   optIntTruthy repo.open_issues, optIntTruthy repo.commits_last_7_days,
   optIntTruthy repo.active_contributors]

/-- data_quality.calculate_completeness_score: required fields weighted 0.7,
optional fields weighted 0.3. -/
def calculate_completeness_score (repo : Repo) : ℚ :=
  let required_present : ℕ := (requiredFieldFlags repo).count true
  let optional_present : ℕ := (optionalFieldFlags repo).count true
  (required_present : ℚ) / 6 * (7/10) + (optional_present : ℚ) / 5 * (3/10)

/-- data_quality.calculate_freshness_score: step function of days since the
last update relative to `now`; 0.5 when the update timestamp is absent. -/
def calculate_freshness_score (now : Int) (repo : Repo) : ℚ :=
  match repo.updated_at with
  | none => 1/2
  | some updated =>
    let days_since_update : Int := (now - updated).fdiv 86400
    if days_since_update ≤ 1 then 1
    else if days_since_update ≤ 7 then 9/10
    else if days_since_update ≤ 30 then 7/10
    else if days_since_update ≤ 90 then 1/2
    else 3/10

/-- The valid_languages list of data_quality.calculate_validity_score. -/
def valid_languages : List String :=
  ["Python", "TypeScript", "JavaScript", "Go", "Java",
   "C++", "C", "Ruby", "PHP", "C#", "Rust", "Swift"]

/-- The language check of calculate_validity_score: the language is accepted
when it is truthy and a member of valid_languages. -/
def languageRecognized : Option String → Bool
  | none => false
  | some l => !(l == "") && valid_languages.contains l

/-- data_quality.calculate_validity_score: starts at 1.0, subtracts fixed
penalties, floored at 0. -/
def calculate_validity_score (repo : Repo) : ℚ :=
  let stars : Int := repo.stars.getD 0
  let score1 : ℚ := if stars < 0 then 1 - 3/10 else 1
  let forks : Int := repo.forks.getD 0
  let score2 : ℚ :=
    if forks < 0 then score1 - 2/10
    else if 0 < stars ∧ stars * 2 < forks then score1 - 1/10
    else score1
  let score3 : ℚ :=
    match repo.created_at, repo.updated_at with
    | some created, some updated => if updated < created then score2 - 2/10 else score2
    | _, _ => score2
  let score4 : ℚ := if languageRecognized repo.language then score3 else score3 - 1/10
  max 0 score4

/-- data_quality.calculate_data_quality_score: weighted sum of the three
component scores, rounded to two decimals. -/
def calculate_data_quality_score (now : Int) (repo : Repo) : ℚ :=
  let scores : List ℚ :=
    [calculate_completeness_score repo * (4/10),
     calculate_freshness_score now repo * (3/10),
     calculate_validity_score repo * (3/10)]
  pyRound2 scores.sum

/-- workflow.load_to_analytics_simple.calculate_recency_score: step function
of the repository age in days (0.0 when the creation timestamp is absent). -/
def calculate_recency_score (now : Int) (created_at : Option Int) : ℚ :=
  match created_at with
  | none => 0
  | some created =>
    let age_days : Int := (now - created).fdiv 86400
    if age_days ≤ 30 then 1
    else if age_days ≤ 60 then 3/4
    else if age_days ≤ 90 then 1/2
    else 0

/-- Modelled from the spec's words, solely for comparison with the code's
recency function: the recency-decay step function the spec describes
(≤14d→1.0, ≤30d→0.85, ≤60d→0.60, ≤90d→0.35, ≤180d→0.15, ≤365d→0.05,
else 0.01). -/
def recencyScoreClaimed (age_days : Int) : ℚ :=
  if age_days ≤ 14 then 1
  else if age_days ≤ 30 then 17/20
  else if age_days ≤ 60 then 3/5
  else if age_days ≤ 90 then 7/20
  else if age_days ≤ 180 then 3/20
  else if age_days ≤ 365 then 1/20
  else 1/100

/-- The enriched repository dict built by workflow.analyze_single_repo, with
the fields that store_in_staging reads. -/
structure EnrichedRepo where
  repo_full_name : String
  repo_url : Option String := none
  language : Option String := none
  description : Option String := none
  readme_content : Option String := none
  stars : Int := 0
  created_at : Option Int := none
  updated_at : Option Int := none
  uses_render : Bool := false
  data_quality_score : ℚ := 0
deriving DecidableEq

/-- One row of the stg_repos_validated staging table. -/
structure StagingRow where
  repo_full_name : String
  repo_url : Option String
  language : Option String
  description : Option String
  stars : Int
  created_at : Option Int
  updated_at : Option Int
  uses_render : Bool
  readme_content : Option String
  data_quality_score : ℚ
  loaded_at : Int
deriving DecidableEq

/-- The staging row inserted for an enriched repository (loaded_at is the
schema default NOW()). -/
def stagingRowOf (now : Int) (repo : EnrichedRepo) : StagingRow :=
  { repo_full_name := repo.repo_full_name, repo_url := repo.repo_url,
    language := repo.language, description := repo.description,
    stars := repo.stars, created_at := repo.created_at,
    updated_at := repo.updated_at, uses_render := repo.uses_render,
    readme_content := repo.readme_content,
    data_quality_score := repo.data_quality_score, loaded_at := now }

/-- workflow.store_in_staging: INSERT ... ON CONFLICT (repo_full_name) DO
UPDATE of the mutable fields stars, updated_at, uses_render,
readme_content, data_quality_score and loaded_at = NOW(). -/
def store_in_staging (now : Int) (repo : EnrichedRepo)
    (table : List StagingRow) : List StagingRow :=
  if table.any (fun r => r.repo_full_name == repo.repo_full_name) then
    table.map (fun r =>
      if r.repo_full_name == repo.repo_full_name then
        { r with stars := repo.stars, updated_at := repo.updated_at,
                 uses_render := repo.uses_render,
                 readme_content := repo.readme_content,
                 data_quality_score := repo.data_quality_score,
                 loaded_at := now }
      else r)
  else table ++ [stagingRowOf now repo]

/-- A raw repository candidate as returned by the search API, with the
fields analyze_single_repo reads. -/
structure Candidate where
  full_name : Option String := none
  html_url : Option String := none
  language : Option String := none
  description : Option String := none
  stargazers_count : Option Int := none
  created_at : Option Int := none
  updated_at : Option Int := none
deriving DecidableEq

/-- The result dict of render_detection.detect_render_usage, with dict.get
defaults for each field ({} behaves as the all-default value). -/
structure RenderData where
  uses_render : Bool := false
  services : List String := []
  render_category : Option String := none
  complexity_score : Int := 0
  service_count : Int := 0
  has_blueprint_button : Bool := false
deriving DecidableEq

/-- One row of the stg_render_enrichment staging table. -/
structure RenderEnrichRow where
  repo_full_name : String
  render_category : Option String
  render_services : List String
  has_blueprint_button : Bool
  render_complexity_score : Int
  service_count : Int
  loaded_at : Int
deriving DecidableEq

/-- render_detection.store_render_enrichment upsert of a single project row
(ON CONFLICT (repo_full_name) DO UPDATE of every enrichment field,
loaded_at = NOW()). -/
def renderEnrichUpsert (row : RenderEnrichRow)
    (table : List RenderEnrichRow) : List RenderEnrichRow :=
  if table.any (fun r => r.repo_full_name == row.repo_full_name) then
    table.map (fun r =>
      if r.repo_full_name == row.repo_full_name then
        { r with render_category := row.render_category,
                 render_services := row.render_services,
                 has_blueprint_button := row.has_blueprint_button,
                 render_complexity_score := row.render_complexity_score,
                 service_count := row.service_count,
                 loaded_at := row.loaded_at }
      else r)
  else table ++ [row]

/-- render_detection.store_render_enrichment: upsert each project with a
truthy repo_full_name. -/
def store_render_enrichment (projects : List RenderEnrichRow)
    (table : List RenderEnrichRow) : List RenderEnrichRow :=
  projects.foldl (fun t p =>
    if p.repo_full_name == "" then t else renderEnrichUpsert p t) table

/-- The two staging tables written by analyze_single_repo. -/
structure StagingState where
  repos : List StagingRow := []
  render_enrichment : List RenderEnrichRow := []
deriving DecidableEq

/-- The per-task environment of analyze_single_repo: the injected run time,
the outcome of detect_render_usage (an exception is caught and replaced by
the empty dict), and the README content available to the task (pre-fetched
or fetched; a fetch error yields none in either branch). -/
structure AnalyzeEnv where
  now : Int
  detect : Except Unit RenderData
  readme : Option String

/-- The identity validation of analyze_single_repo:
`if not repo_full_name or '/' not in repo_full_name`. -/
def candidateNameOk (full_name : Option String) : Bool :=
  match full_name with
  | none => false
  | some s => !(s == "") && s.data.contains '/'

/-- The Repo view of the enriched dict that analyze_single_repo passes to
calculate_data_quality_score (the dict has no forks / open_issues /
commits_last_7_days / active_contributors keys). -/
def qualityInput (e : EnrichedRepo) : Repo :=
  { repo_full_name := some e.repo_full_name,
    repo_url := e.repo_url,
    language := e.language,
    stars := some e.stars,
    created_at := e.created_at,
    updated_at := e.updated_at,
    description := e.description,
    forks := none, open_issues := none,
    commits_last_7_days := none, active_contributors := none }

/-- The minimal summary returned by a successful analyze_single_repo task. -/
structure Summary where
  repo_full_name : String
  language : Option String
  stars : Int
deriving DecidableEq

/-- workflow.analyze_single_repo: validate the full name, enrich, score,
write to staging (plus the render enrichment table when applicable) and
return the minimal summary; an invalid full name skips with no write. -/
def analyze_single_repo (env : AnalyzeEnv) (cand : Candidate)
    (st : StagingState) : Option Summary × StagingState :=
  if !(candidateNameOk cand.full_name) then (none, st)
  else
    let render_data : RenderData :=
      match env.detect with
      | .ok d => d
      | .error _ => {}
    let name : String := cand.full_name.getD ""
    let enriched0 : EnrichedRepo :=
      { repo_full_name := name,
        repo_url := cand.html_url,
        language := cand.language,
        description := cand.description,
        readme_content := env.readme,
        stars := cand.stargazers_count.getD 0,
        created_at := cand.created_at,
        updated_at := cand.updated_at,
        uses_render := render_data.uses_render,
        data_quality_score := 0 }
    let enriched : EnrichedRepo :=
      { enriched0 with
        data_quality_score := calculate_data_quality_score env.now (qualityInput enriched0) }
    let st1 : StagingState :=
      { st with repos := store_in_staging env.now enriched st.repos }
    let enriched_project : RenderEnrichRow :=
      { repo_full_name := enriched.repo_full_name,
        render_category := some (render_data.render_category.getD "community"),
        render_services := render_data.services,
        has_blueprint_button := render_data.has_blueprint_button,
        render_complexity_score := render_data.complexity_score,
        service_count := render_data.service_count,
        loaded_at := env.now }
    let st2 : StagingState :=
      if render_data.uses_render then
        { st1 with render_enrichment :=
            store_render_enrichment [enriched_project] st1.render_enrichment }
      else st1
    (some { repo_full_name := enriched.repo_full_name,
            language := enriched.language, stars := enriched.stars }, st2)

/-- workflow.chunk_list: split a list into consecutive slices of the given
size (for size 10: items[0:10], items[10:20], ...). -/
def chunk_list {α : Type} (size : Nat) : List α → List (List α)
  | [] => []
  | x :: xs => (x :: xs.take (size - 1)) :: chunk_list size (xs.drop (size - 1))
termination_by l => l.length
decreasing_by simp [List.length_drop]; omega

/-- The per-chunk collection step of analyze_repo_batch: exceptions from
asyncio.gather(..., return_exceptions=True) are logged and dropped, and a
None result (a skipped task) is dropped. -/
def collectBatchResults (results : List (Except Unit (Option Summary))) : List Summary :=
  results.filterMap (fun r =>
    match r with
    | .ok (some s) => some s
    | _ => none)

/-- workflow.analyze_repo_batch: process the candidate list in chunks of 10,
run one task per candidate within a chunk, and accumulate the successful
summaries across chunks. -/
def analyze_repo_batch {α : Type} (run : α → Except Unit (Option Summary))
    (repos : List α) : List Summary :=
  (chunk_list 10 repos).foldl
    (fun acc batch => acc ++ collectBatchResults (batch.map run)) []

/-- The exception classes the API client's retry loop handles:
asyncio.TimeoutError and aiohttp.ClientError (the 403 branch raises a
ClientError, and raise_for_status raises a ClientError subclass). -/
inductive PyErr where
  | timeoutErr
  | clientError
deriving DecidableEq

/-- An HTTP response as seen by github_api.GitHubAPIClient._api_call: the
status code, whether the (403) body text mentions a rate limit or
insufficient scopes, and the parsed JSON payload (none models a
JSONDecodeError). -/
structure HttpResponse (α : Type) where
  status : Nat
  bodyRateLimit : Bool
  bodyInsufficient : Bool
  payload : Option α

/-- The control outcome of one loop iteration body of _api_call: either a
return value for the caller or a continue into the next attempt. -/
inductive LoopStep (α : Type) where
  | ret : Option α → LoopStep α
  | retryNext : LoopStep α

/-- The status-driven branching inside one attempt of _api_call (the
match on response.status followed by the JSON parse).  `hasNext` is
`attempt < retry_count - 1`. -/
def apiAttemptStep {α : Type} (resp : HttpResponse α) (hasNext : Bool) :
    Except PyErr (LoopStep α) :=
  if resp.status == 404 then .ok (.ret none)
  else if resp.status == 403 then
    (if resp.bodyRateLimit then .ok (.ret none)
     else if resp.bodyInsufficient then .ok (.ret none)
     else .error .clientError)
  else if resp.status == 422 then .ok (.ret none)
  else if resp.status == 503 then
    (if hasNext then .ok .retryNext else .ok (.ret none))
  else if 400 ≤ resp.status then .error .clientError
  else .ok (.ret resp.payload)

/-- The retry loop of _api_call from a given attempt index with a given
number of loop iterations left; `fetch` gives the network outcome of each
attempt (an error is a raised TimeoutError / ClientError from the GET).
The except handlers retry while attempts remain and otherwise return None;
a completed loop returns None. -/
def apiCallFrom {α : Type} (fetch : Nat → Except PyErr (HttpResponse α)) :
    Nat → Nat → Except PyErr (Option α)
  | _, 0 => .ok none
  | attempt, remaining + 1 =>
    let hasNext : Bool := remaining != 0
    let outcome : Except PyErr (LoopStep α) :=
      match fetch attempt with
      | .error e => .error e
      | .ok resp => apiAttemptStep resp hasNext
    match outcome with
    | .ok (.ret v) => .ok v
    | .ok .retryNext => apiCallFrom fetch (attempt + 1) remaining
    | .error .timeoutErr =>
        if hasNext then apiCallFrom fetch (attempt + 1) remaining else .ok none
    | .error .clientError =>
        if hasNext then apiCallFrom fetch (attempt + 1) remaining else .ok none

/-- github_api.GitHubAPIClient._api_call with its default retry_count of 3. -/
def api_call {α : Type} (fetch : Nat → Except PyErr (HttpResponse α))
    (retry_count : Nat) : Except PyErr (Option α) :=
  apiCallFrom fetch 0 retry_count

/-- github_api.GitHubAPIClient.get_file_contents: call the contents
endpoint, extract and base64-decode the content field (decodeContent is
none when the content key is missing or decoding fails), and turn any
exception into None via the surrounding try/except. -/
def get_file_contents {α : Type} (fetch : Nat → Except PyErr (HttpResponse α))
    (decodeContent : α → Option String) : Option String :=
  match api_call fetch 3 with
  | .error _ => none
  | .ok none => none
  | .ok (some j) => decodeContent j

/-- One repository row extracted from staging for the analytics load
(the SELECT of aggregate_results joined with the render enrichment). -/
structure StagedRow where
  repo_full_name : String
  repo_url : Option String := none
  language : Option String := none
  description : Option String := none
  stars : Int := 0
  created_at : Option Int := none
  updated_at : Option Int := none
  uses_render : Bool := false
  readme_content : Option String := none
  data_quality_score : ℚ := 0
  render_services : List String := []
  render_complexity_score : Int := 0
  has_blueprint_button : Bool := false
deriving DecidableEq

/-- Python max over a list of star counts; the caller substitutes 1 for an
empty cohort. -/
def maxStarsIn (rows : List StagedRow) : Int :=
  match rows.map (fun r => r.stars) with
  | [] => 1
  | x :: xs => xs.foldl max x

/-- load_to_analytics_simple: per-run maximum stars of the general
(non-render) cohort. -/
def max_stars_general (repos : List StagedRow) : Int :=
  maxStarsIn (repos.filter (fun r => !r.uses_render))

/-- load_to_analytics_simple: per-run maximum stars of the render cohort. -/
def max_stars_render (repos : List StagedRow) : Int :=
  maxStarsIn (repos.filter (fun r => r.uses_render))

/-- load_to_analytics_simple: `stars / max_stars if max_stars > 0 else 0.0`,
with the normalization base chosen by the repository's cohort. -/
def normalized_stars (maxG maxR : Int) (repo : StagedRow) : ℚ :=
  let max_stars : Int := if repo.uses_render then maxR else maxG
  if 0 < max_stars then (repo.stars : ℚ) / (max_stars : ℚ) else 0

/-- load_to_analytics_simple: momentum = normalized stars * 0.5 +
recency score * 0.5. -/
def momentum_score (maxG maxR : Int) (now : Int) (repo : StagedRow) : ℚ :=
  normalized_stars maxG maxR repo * (1/2) +
    calculate_recency_score now repo.created_at * (1/2)

/-- One current-version row of the dim_repositories dimension table. -/
structure DimRow where
  repo_key : Nat
  repo_full_name : String
  repo_url : Option String
  description : Option String
  readme_content : Option String
  language : Option String
  created_at : Option Int
  uses_render : Bool
  render_category : String
  is_current : Bool
deriving DecidableEq

/-- One row of the fact_repo_snapshots fact table. -/
structure FactRow where
  repo_key : Nat
  language_key : Nat
  snapshot_date : Int
  stars : Int
  star_velocity : ℚ
  activity_score : ℚ
  momentum_score : ℚ
  rank_overall : Nat
  rank_in_language : Option Nat
deriving DecidableEq

/-- One row of the fact_render_usage fact table. -/
structure RenderFactRow where
  repo_key : Nat
  service_key : Nat
  snapshot_date : Int
  service_count : Int
  complexity_score : Int
  has_blueprint : Bool
deriving DecidableEq

/-- The analytics-layer state touched by load_to_analytics_simple.
`next_repo_key` models the serial key generator of dim_repositories. -/
structure AnalyticsState where
  dims : List DimRow := []
  next_repo_key : Nat := 1
  facts : List FactRow := []
  render_facts : List RenderFactRow := []
deriving DecidableEq

/-- Where a per-row database failure strikes inside the load loop body:
at the dimension upsert (nothing committed for the row) or at the fact
insert (the dimension upsert already committed). -/
inductive FailPoint where
  | atDim
  | atFact
deriving DecidableEq

/-- The environment of one analytics load run: the read-only language and
service dimension lookup tables (populated out-of-band) and an oracle
saying which rows hit a database error, and where. -/
structure LoadEnv where
  language_table : List (String × Nat) := []
  service_table : List (String × Nat) := []
  err : StagedRow → Option FailPoint := fun _ => none

/-- The dim_repositories upsert of load_to_analytics_simple:
ON CONFLICT (repo_full_name) WHERE is_current, DO UPDATE of repo_url,
description, readme_content and uses_render; a fresh row gets the next
serial key and render_category 'community'. -/
def upsert_dim (st : AnalyticsState) (row : StagedRow) : AnalyticsState :=
  if st.dims.any (fun d => d.is_current && d.repo_full_name == row.repo_full_name) then
    { st with dims := st.dims.map (fun d =>
        if d.is_current && d.repo_full_name == row.repo_full_name then
          { d with repo_url := row.repo_url, description := row.description,
                   readme_content := row.readme_content,
                   uses_render := row.uses_render }
        else d) }
  else
    { st with
      dims := st.dims ++
        [{ repo_key := st.next_repo_key, repo_full_name := row.repo_full_name,
           repo_url := row.repo_url, description := row.description,
           readme_content := row.readme_content, language := row.language,
           created_at := row.created_at, uses_render := row.uses_render,
           render_category := "community", is_current := true }],
      next_repo_key := st.next_repo_key + 1 }

/-- SELECT repo_key FROM dim_repositories WHERE repo_full_name = name AND
is_current = TRUE. -/
def dim_repo_key (dims : List DimRow) (name : String) : Option Nat :=
  (dims.find? (fun d => d.is_current && d.repo_full_name == name)).map
    (fun d => d.repo_key)

/-- SELECT language_key FROM dim_languages WHERE language_name = language
(a NULL language matches no row). -/
def language_key_lookup (table : List (String × Nat)) (language : Option String) :
    Option Nat :=
  match language with
  | none => none
  | some l => (table.find? (fun p => p.1 == l)).map (fun p => p.2)

/-- Python falsiness of a fetched key: None or 0. -/
def keyFalsy : Option Nat → Bool
  | none => true
  | some k => k == 0

/-- The fact_repo_snapshots upsert: ON CONFLICT (repo_key, snapshot_date)
DO UPDATE of stars, momentum_score and rank_overall. -/
def upsert_fact (facts : List FactRow) (f : FactRow) : List FactRow :=
  if facts.any (fun g => g.repo_key == f.repo_key && g.snapshot_date == f.snapshot_date) then
    facts.map (fun g =>
      if g.repo_key == f.repo_key && g.snapshot_date == f.snapshot_date then
        { g with stars := f.stars, momentum_score := f.momentum_score,
                 rank_overall := f.rank_overall }
      else g)
  else facts ++ [f]

/-- The fact_render_usage upsert: ON CONFLICT (repo_key, service_key,
snapshot_date) DO UPDATE of complexity_score and has_blueprint. -/
def upsert_render_fact (facts : List RenderFactRow) (f : RenderFactRow) :
    List RenderFactRow :=
  if facts.any (fun g => g.repo_key == f.repo_key && g.service_key == f.service_key
      && g.snapshot_date == f.snapshot_date) then
    facts.map (fun g =>
      if g.repo_key == f.repo_key && g.service_key == f.service_key
          && g.snapshot_date == f.snapshot_date then
        { g with complexity_score := f.complexity_score,
                 has_blueprint := f.has_blueprint }
      else g)
  else facts ++ [f]

/-- One iteration of the per-service inner loop of load_to_analytics_simple:
look up the service type in dim_render_services and, when a truthy key is
found, upsert a usage fact row. -/
def render_usage_step (env : LoadEnv) (today : Int) (rk : Nat)
    (row : StagedRow) (s : AnalyticsState) (service_type : String) :
    AnalyticsState :=
  let service_key : Option Nat :=
    (env.service_table.find? (fun p => p.1 == service_type)).map (fun p => p.2)
  if keyFalsy service_key then s
  else
    let f : RenderFactRow :=
      { repo_key := rk, service_key := service_key.getD 0,
        snapshot_date := today, service_count := 1,
        complexity_score := row.render_complexity_score,
        has_blueprint := row.has_blueprint_button }
    { s with render_facts := upsert_render_fact s.render_facts f }

/-- The per-service inner loop of load_to_analytics_simple over the row's
declared service types. -/
def insert_render_usage (env : LoadEnv) (today : Int) (rk : Nat)
    (row : StagedRow) (st : AnalyticsState) : AnalyticsState :=
  row.render_services.foldl (render_usage_step env today rk row) st

/-- The body of the load loop of load_to_analytics_simple for one staged
row at 1-based position idx: skip falsy names, upsert the dimension, look
up both keys and skip the row (continue) when either is falsy, otherwise
upsert the fact snapshot and any render usage facts.  A database error
(env.err) raised inside the try block is caught and the loop continues. -/
def load_row (env : LoadEnv) (maxG maxR now today : Int)
    (st : AnalyticsState) (idx : Nat) (repo : StagedRow) : AnalyticsState :=
  if repo.repo_full_name == "" then st
  else if env.err repo == some .atDim then st
  else
    let st1 : AnalyticsState := upsert_dim st repo
    let repo_key : Option Nat := dim_repo_key st1.dims repo.repo_full_name
    let language_key : Option Nat :=
      language_key_lookup env.language_table repo.language
    if keyFalsy repo_key || keyFalsy language_key then st1
    else if env.err repo == some .atFact then st1
    else
      let f : FactRow :=
        { repo_key := repo_key.getD 0, language_key := language_key.getD 0,
          snapshot_date := today, stars := repo.stars,
          star_velocity := 0, activity_score := 0,
          momentum_score := momentum_score maxG maxR now repo,
          rank_overall := idx, rank_in_language := none }
      let st2 : AnalyticsState := { st1 with facts := upsert_fact st1.facts f }
      if repo.uses_render && !(repo.render_services == []) then
        insert_render_usage env today (repo_key.getD 0) repo st2
      else st2

/-- The enumerate(repos, 1) loop over the staged rows. -/
def load_rows_from (env : LoadEnv) (maxG maxR now today : Int) :
    Nat → List StagedRow → AnalyticsState → AnalyticsState
  | _, [], st => st
  | idx, repo :: rest, st =>
      load_rows_from env maxG maxR now today (idx + 1) rest
        (load_row env maxG maxR now today st idx repo)

/-- workflow.load_to_analytics_simple: compute the two cohort normalization
bases and run the row loop from index 1. -/
def load_to_analytics_simple (env : LoadEnv) (now today : Int)
    (repos : List StagedRow) (st : AnalyticsState) : AnalyticsState :=
  load_rows_from env (max_stars_general repos) (max_stars_render repos)
    now today 1 repos st

/-! ### Helper lemmas about the scoring functions -/

theorem pyRound2_bounds {q : ℚ} (h0 : 0 ≤ q) (h1 : q ≤ 1) :
    0 ≤ pyRound2 q ∧ pyRound2 q ≤ 1 := by
  simp only [pyRound2]
  set s : ℚ := q * 100 with hs
  have hs0 : 0 ≤ s := by positivity
  have hs1 : s ≤ 100 := by nlinarith
  have hfl0 : (0 : ℤ) ≤ ⌊s⌋ := by
    exact Int.le_floor.mpr (by exact_mod_cast hs0)
  have hfl1 : ⌊s⌋ ≤ 100 := by
    have h := Int.floor_le_floor (α := ℚ) hs1
    simpa using h
  have hfrlow : (⌊s⌋ : ℚ) ≤ s := Int.floor_le s
  set r : ℤ :=
    if s - (⌊s⌋ : ℚ) < 1/2 then ⌊s⌋
    else if 1/2 < s - (⌊s⌋ : ℚ) then ⌊s⌋ + 1
    else if ⌊s⌋ % 2 = 0 then ⌊s⌋ else ⌊s⌋ + 1 with hr
  have hr0 : 0 ≤ r := by
    rw [hr]; split_ifs <;> omega
  have hr1 : r ≤ 100 := by
    rw [hr]
    split_ifs with hlt hgt hev
    · exact hfl1
    · have hq : (⌊s⌋ : ℚ) ≤ s - 1/2 := by linarith
      have : (⌊s⌋ : ℚ) < 100 := by linarith
      have : ⌊s⌋ < 100 := by exact_mod_cast this
      omega
    · exact hfl1
    · have hhalf : s - (⌊s⌋ : ℚ) = 1/2 := le_antisymm (not_lt.mp hgt) (not_lt.mp hlt)
      have : (⌊s⌋ : ℚ) < 100 := by linarith
      have : ⌊s⌋ < 100 := by exact_mod_cast this
      omega
  constructor
  · exact div_nonneg (by exact_mod_cast hr0) (by norm_num)
  · rw [div_le_one (by norm_num)]
    exact_mod_cast hr1

theorem calculate_completeness_score_nonneg (repo : Repo) :
    0 ≤ calculate_completeness_score repo := by
  simp only [calculate_completeness_score]
  positivity

theorem calculate_completeness_score_le_one (repo : Repo) :
    calculate_completeness_score repo ≤ 1 := by
  simp only [calculate_completeness_score]
  have h1 : (requiredFieldFlags repo).count true ≤ 6 := by
    have h := List.count_le_length (a := true) (l := requiredFieldFlags repo)
    simpa [requiredFieldFlags] using h
  have h2 : (optionalFieldFlags repo).count true ≤ 5 := by
    have h := List.count_le_length (a := true) (l := optionalFieldFlags repo)
    simpa [optionalFieldFlags] using h
  have c1 : ((requiredFieldFlags repo).count true : ℚ) ≤ 6 := by exact_mod_cast h1
  have c2 : ((optionalFieldFlags repo).count true : ℚ) ≤ 5 := by exact_mod_cast h2
  have d1 : (0 : ℚ) ≤ ((requiredFieldFlags repo).count true : ℚ) := by positivity
  have d2 : (0 : ℚ) ≤ ((optionalFieldFlags repo).count true : ℚ) := by positivity
  linarith

theorem calculate_freshness_score_bounds (now : Int) (repo : Repo) :
    0 ≤ calculate_freshness_score now repo ∧ calculate_freshness_score now repo ≤ 1 := by
  rcases hu : repo.updated_at with _ | u
  · simp only [calculate_freshness_score, hu]
    constructor <;> norm_num
  · simp only [calculate_freshness_score, hu]
    constructor <;> split_ifs <;> norm_num

/-- The penalty for a negative star count (calculate_validity_score). -/
def starsPenalty (repo : Repo) : ℚ :=
  if repo.stars.getD 0 < 0 then 3/10 else 0

/-- The penalty for a negative fork count, or else for more than twice as
many forks as (positive) stars (calculate_validity_score). -/
def forkPenalty (repo : Repo) : ℚ :=
  if repo.forks.getD 0 < 0 then 2/10
  else if 0 < repo.stars.getD 0 ∧ repo.stars.getD 0 * 2 < repo.forks.getD 0 then 1/10
  else 0

/-- The penalty for a creation date after the update date
(calculate_validity_score). -/
def datePenalty (repo : Repo) : ℚ :=
  match repo.created_at, repo.updated_at with
  | some created, some updated => if updated < created then 2/10 else 0
  | _, _ => 0

/-- The penalty for an unrecognized or missing language
(calculate_validity_score). -/
def languagePenalty (repo : Repo) : ℚ :=
  if languageRecognized repo.language then 0 else 1/10

theorem calculate_validity_score_eq (repo : Repo) :
    calculate_validity_score repo =
      max 0 (1 - starsPenalty repo - forkPenalty repo - datePenalty repo -
        languagePenalty repo) := by
  simp only [calculate_validity_score, starsPenalty, forkPenalty, datePenalty,
    languagePenalty]
  rcases repo.created_at with _ | c <;> rcases repo.updated_at with _ | u <;>
    dsimp only <;> split_ifs <;> ring_nf

theorem starsPenalty_bounds (repo : Repo) :
    0 ≤ starsPenalty repo ∧ starsPenalty repo ≤ 3/10 := by
  simp only [starsPenalty]; split_ifs <;> norm_num

theorem forkPenalty_bounds (repo : Repo) :
    0 ≤ forkPenalty repo ∧ forkPenalty repo ≤ 2/10 := by
  simp only [forkPenalty]; split_ifs <;> norm_num

theorem datePenalty_bounds (repo : Repo) :
    0 ≤ datePenalty repo ∧ datePenalty repo ≤ 2/10 := by
  rcases hc : repo.created_at with _ | c <;> rcases hu : repo.updated_at with _ | u <;>
    simp only [datePenalty, hc, hu] <;> constructor <;>
    first
    | (split_ifs <;> norm_num)
    | norm_num

theorem languagePenalty_bounds (repo : Repo) :
    0 ≤ languagePenalty repo ∧ languagePenalty repo ≤ 1/10 := by
  simp only [languagePenalty]; split_ifs <;> norm_num

theorem calculate_validity_score_ge (repo : Repo) :
    1/5 ≤ calculate_validity_score repo := by
  rw [calculate_validity_score_eq]
  have h1 := starsPenalty_bounds repo
  have h2 := forkPenalty_bounds repo
  have h3 := datePenalty_bounds repo
  have h4 := languagePenalty_bounds repo
  have : (1/5 : ℚ) ≤ 1 - starsPenalty repo - forkPenalty repo - datePenalty repo -
      languagePenalty repo := by linarith
  exact le_trans this (le_max_right _ _)

theorem calculate_validity_score_bounds (repo : Repo) :
    0 ≤ calculate_validity_score repo ∧ calculate_validity_score repo ≤ 1 := by
  constructor
  · rw [calculate_validity_score_eq]; exact le_max_left _ _
  · rw [calculate_validity_score_eq]
    have h1 := starsPenalty_bounds repo
    have h2 := forkPenalty_bounds repo
    have h3 := datePenalty_bounds repo
    have h4 := languagePenalty_bounds repo
    exact max_le (by norm_num) (by linarith)

theorem calculate_recency_score_bounds (now : Int) (created_at : Option Int) :
    0 ≤ calculate_recency_score now created_at ∧
      calculate_recency_score now created_at ≤ 1 := by
  rcases hc : created_at with _ | c
  · simp [calculate_recency_score]
  · simp only [calculate_recency_score]
    constructor <;> split_ifs <;> norm_num

/-! ### Claim C1 (recency-decay step function) -/

/-- Claim C1, counterexample: at an age of exactly 15 days the code's
recency score is 1.0, while the claim requires 0.85. -/
theorem recency_score_age15_counterexample :
    calculate_recency_score (15 * 86400) (some 0) = 1 ∧
    recencyScoreClaimed 15 = 17/20 ∧
    calculate_recency_score (15 * 86400) (some 0) ≠ recencyScoreClaimed 15 := by
  have h1 : calculate_recency_score (15 * 86400) (some 0) = 1 := by decide
  have h2 : recencyScoreClaimed 15 = 17/20 := by norm_num [recencyScoreClaimed]
  refine ⟨h1, h2, ?_⟩
  rw [h1, h2]
  norm_num

/-- Claim C1, amended: the recency-decay score of the analytics load is the
step function age ≤ 30 days → 1.0, ≤ 60 → 0.75, ≤ 90 → 0.5, otherwise 0.0
(missing creation date → 0.0); in particular an age of 14 days scores 1.0
and an age of 15 days also scores 1.0. -/
theorem recency_score_step_function :
    (∀ now : Int, calculate_recency_score now none = 0) ∧
    (∀ now created : Int,
        calculate_recency_score now (some created) =
          (if (now - created).fdiv 86400 ≤ 30 then 1
           else if (now - created).fdiv 86400 ≤ 60 then 3/4
           else if (now - created).fdiv 86400 ≤ 90 then 1/2
           else 0)) ∧
    (∀ now : Int, calculate_recency_score now (some (now - 14 * 86400)) = 1) ∧
    (∀ now : Int, calculate_recency_score now (some (now - 15 * 86400)) = 1) := by
  refine ⟨fun now => rfl, fun now created => rfl, ?_, ?_⟩
  · intro now
    simp only [calculate_recency_score]
    have h : now - (now - 14 * 86400) = 14 * 86400 := by ring
    rw [h]
    decide
  · intro now
    simp only [calculate_recency_score]
    have h : now - (now - 15 * 86400) = 15 * 86400 := by ring
    rw [h]
    decide

/-! ### Claim C2 (data-quality score formula and bounds) -/

/-- Claim C2: the data-quality score is 0.4·completeness + 0.3·freshness +
0.3·validity rounded to two decimals, completeness is the weighted
fraction of truthy required (70%) and optional (30%) fields, and the
resulting score always lies in [0, 1]. -/
theorem data_quality_score_formula_and_bounds (now : Int) (repo : Repo) :
    calculate_data_quality_score now repo =
      pyRound2 (calculate_completeness_score repo * (4/10) +
        calculate_freshness_score now repo * (3/10) +
        calculate_validity_score repo * (3/10)) ∧
    calculate_completeness_score repo =
      (((requiredFieldFlags repo).count true : ℚ) / 6) * (7/10) +
        (((optionalFieldFlags repo).count true : ℚ) / 5) * (3/10) ∧
    0 ≤ calculate_data_quality_score now repo ∧
    calculate_data_quality_score now repo ≤ 1 := by
  have hform : calculate_data_quality_score now repo =
      pyRound2 (calculate_completeness_score repo * (4/10) +
        calculate_freshness_score now repo * (3/10) +
        calculate_validity_score repo * (3/10)) := by
    simp only [calculate_data_quality_score, List.sum_cons, List.sum_nil]
    ring_nf
  have hc0 := calculate_completeness_score_nonneg repo
  have hc1 := calculate_completeness_score_le_one repo
  have hf := calculate_freshness_score_bounds now repo
  have hv := calculate_validity_score_bounds repo
  have harg0 : 0 ≤ calculate_completeness_score repo * (4/10) +
      calculate_freshness_score now repo * (3/10) +
      calculate_validity_score repo * (3/10) := by
    have := hf.1; have := hv.1; nlinarith
  have harg1 : calculate_completeness_score repo * (4/10) +
      calculate_freshness_score now repo * (3/10) +
      calculate_validity_score repo * (3/10) ≤ 1 := by
    have := hf.2; have := hv.2; nlinarith
  have hb := pyRound2_bounds harg0 harg1
  exact ⟨hform, rfl, by rw [hform]; exact hb.1, by rw [hform]; exact hb.2⟩

/-! ### Claim C3 (validity penalty composition) -/

/-- Claim C3: the validity score starts at 1.0 and is reduced by the four
penalty groups (−0.3 negative stars; −0.2 negative forks, or −0.1 for
forks more than twice the positive star count; −0.2 creation after
update; −0.1 unrecognized or missing language), floored at 0; in
particular forks=300, stars=100, language "Unknown" scores 0.8. -/
theorem validity_penalty_composition :
    (∀ repo : Repo, calculate_validity_score repo =
       max 0 (1 - starsPenalty repo - forkPenalty repo - datePenalty repo -
         languagePenalty repo)) ∧
    calculate_validity_score
      { stars := some 100, forks := some 300, language := some "Unknown" } = 4/5 := by
  refine ⟨calculate_validity_score_eq, ?_⟩
  rw [calculate_validity_score_eq]
  norm_num [starsPenalty, forkPenalty, datePenalty, languagePenalty,
    show languageRecognized (some "Unknown") = false from by decide]

/-! ### Claim C10 (validity floor is never attained) -/

/-- Claim C10: the validity score is always at least 0.2, the 0.0 floor is
never attained (the score equals its un-floored value), and the worst
case 0.2 is attained. -/
theorem validity_score_floor_never_attained :
    (∀ repo : Repo,
        1/5 ≤ calculate_validity_score repo ∧
        calculate_validity_score repo =
          1 - starsPenalty repo - forkPenalty repo - datePenalty repo -
            languagePenalty repo) ∧
    calculate_validity_score
      { stars := some (-1), forks := some (-1), created_at := some 1,
        updated_at := some 0, language := none } = 1/5 := by
  have hworst : calculate_validity_score
      { stars := some (-1), forks := some (-1), created_at := some 1,
        updated_at := some 0, language := none } = 1/5 := by
    rw [calculate_validity_score_eq]
    norm_num [starsPenalty, forkPenalty, datePenalty, languagePenalty,
      languageRecognized]
  refine ⟨fun repo => ⟨calculate_validity_score_ge repo, ?_⟩, hworst⟩
  rw [calculate_validity_score_eq]
  have h1 := starsPenalty_bounds repo
  have h2 := forkPenalty_bounds repo
  have h3 := datePenalty_bounds repo
  have h4 := languagePenalty_bounds repo
  exact max_eq_right (by linarith)

/-! ### Claim C4 (cohort normalization and momentum components) -/

theorem le_foldl_max (l : List Int) (a : Int) :
    a ≤ l.foldl max a ∧ ∀ x ∈ l, x ≤ l.foldl max a := by
  induction l generalizing a with
  | nil => exact ⟨le_refl a, by intro x hx; cases hx⟩
  | cons b t ih =>
    refine ⟨?_, ?_⟩
    · calc a ≤ max a b := le_max_left a b
        _ ≤ t.foldl max (max a b) := (ih (max a b)).1
        _ = (b :: t).foldl max a := rfl
    · intro x hx
      rcases List.mem_cons.mp hx with hx | hx
      · subst hx
        calc x ≤ max a x := le_max_right a x
          _ ≤ t.foldl max (max a x) := (ih (max a x)).1
          _ = (x :: t).foldl max a := rfl
      · exact (ih (max a b)).2 x hx

theorem le_maxStarsIn (rows : List StagedRow) (r : StagedRow) (h : r ∈ rows) :
    r.stars ≤ maxStarsIn rows := by
  cases rows with
  | nil => cases h
  | cons a l =>
    simp only [maxStarsIn, List.map_cons]
    rcases List.mem_cons.mp h with h | h
    · subst h
      exact (le_foldl_max (l.map (fun r => r.stars)) r.stars).1
    · exact (le_foldl_max (l.map (fun x => x.stars)) a.stars).2 r.stars
        (List.mem_map_of_mem (fun x => x.stars) h)

theorem le_cohort_max (repos : List StagedRow) (repo : StagedRow)
    (hmem : repo ∈ repos) :
    repo.stars ≤ (if repo.uses_render then max_stars_render repos
      else max_stars_general repos) := by
  by_cases hur : repo.uses_render
  · simp only [hur, if_true, max_stars_render]
    exact le_maxStarsIn _ repo (List.mem_filter.mpr ⟨hmem, by simp [hur]⟩)
  · simp only [hur, if_false, max_stars_general]
    exact le_maxStarsIn _ repo (List.mem_filter.mpr ⟨hmem, by simp [hur]⟩)

/-- Claim C4: during the analytics load, the normalized star count of each
extracted row equals its stars divided by the per-run maximum star count
of its own cohort (render rows and general rows normalized separately),
the momentum score is the fixed 50/50 blend of the normalized star count
and the recency score, and both component scores lie in [0, 1]. -/
theorem momentum_components_normalized_and_bounded
    (repos : List StagedRow) (repo : StagedRow) (now : Int)
    (hmem : repo ∈ repos) (hstars : ∀ r ∈ repos, 0 ≤ r.stars) :
    normalized_stars (max_stars_general repos) (max_stars_render repos) repo =
      (repo.stars : ℚ) /
        ((if repo.uses_render then max_stars_render repos
          else max_stars_general repos : Int) : ℚ) ∧
    0 ≤ normalized_stars (max_stars_general repos) (max_stars_render repos) repo ∧
    normalized_stars (max_stars_general repos) (max_stars_render repos) repo ≤ 1 ∧
    momentum_score (max_stars_general repos) (max_stars_render repos) now repo =
      normalized_stars (max_stars_general repos) (max_stars_render repos) repo * (1/2) +
        calculate_recency_score now repo.created_at * (1/2) ∧
    0 ≤ calculate_recency_score now repo.created_at ∧
    calculate_recency_score now repo.created_at ≤ 1 := by
  have h0 : 0 ≤ repo.stars := hstars repo hmem
  have hcoh := le_cohort_max repos repo hmem
  set M : Int := if repo.uses_render then max_stars_render repos
    else max_stars_general repos with hM
  have hnorm : normalized_stars (max_stars_general repos) (max_stars_render repos) repo =
      (repo.stars : ℚ) / (M : ℚ) := by
    simp only [normalized_stars, ← hM]
    split_ifs with hpos
    · rfl
    · push_neg at hpos
      have hz : repo.stars = 0 := le_antisymm (le_trans hcoh hpos) h0
      rw [hz]
      simp
  have hb : 0 ≤ (repo.stars : ℚ) / (M : ℚ) ∧ (repo.stars : ℚ) / (M : ℚ) ≤ 1 := by
    by_cases hpos : 0 < M
    · have hMq : (0 : ℚ) < (M : ℚ) := by exact_mod_cast hpos
      constructor
      · exact div_nonneg (by exact_mod_cast h0) (le_of_lt hMq)
      · rw [div_le_one hMq]
        exact_mod_cast hcoh
    · push_neg at hpos
      have hz : repo.stars = 0 := le_antisymm (le_trans hcoh hpos) h0
      rw [hz]
      norm_num
  have hrec := calculate_recency_score_bounds now repo.created_at
  exact ⟨hnorm, by rw [hnorm]; exact hb.1, by rw [hnorm]; exact hb.2,
    rfl, hrec.1, hrec.2⟩

/-- A sample staged row used to witness the momentum-score claim. -/
def demoStagedRow : StagedRow :=
  { repo_full_name := "a/b", stars := 10 }

/-- Witness for the momentum-score claim at a concrete row. -/
theorem momentum_components_witness :
    0 ≤ normalized_stars (max_stars_general [demoStagedRow])
        (max_stars_render [demoStagedRow]) demoStagedRow ∧
    normalized_stars (max_stars_general [demoStagedRow])
        (max_stars_render [demoStagedRow]) demoStagedRow ≤ 1 := by
  have h := momentum_components_normalized_and_bounded [demoStagedRow]
    demoStagedRow 0 (List.mem_singleton_self demoStagedRow)
    (by intro r hr; rw [List.mem_singleton.mp hr]; norm_num [demoStagedRow])
  exact ⟨h.2.1, h.2.2.1⟩

/-! ### Claim C5 (per-task required-field validation) -/

/-- Claim C5, counterexample: a candidate with a well-formed full name but
no language and no creation/update timestamps is not skipped — the task
returns a summary and writes one staging row. -/
theorem analyze_missing_fields_still_writes :
    ((analyze_single_repo ⟨0, .ok {}, none⟩
        { full_name := some "a/b", stargazers_count := some 5 } {}).1).isSome = true ∧
    ((analyze_single_repo ⟨0, .ok {}, none⟩
        { full_name := some "a/b", stargazers_count := some 5 } {}).2).repos.length = 1 := by
  have hname : candidateNameOk (some "a/b") = true := by decide
  constructor <;>
    simp [analyze_single_repo, hname, store_in_staging]

/-- Claim C5, amended: only a missing, empty or slash-free full name makes
analyze_single_repo skip (returning no summary and leaving both staging
tables untouched); a candidate with a well-formed full name is always
analyzed and returns a summary, even with language or timestamps
missing. -/
theorem analyze_single_repo_name_validation :
    (∀ (env : AnalyzeEnv) (cand : Candidate) (st : StagingState),
        candidateNameOk cand.full_name = false →
          analyze_single_repo env cand st = (none, st)) ∧
    (∀ (env : AnalyzeEnv) (cand : Candidate) (st : StagingState),
        candidateNameOk cand.full_name = true →
          ((analyze_single_repo env cand st).1).isSome = true) := by
  constructor <;> intro env cand st h <;>
    simp [analyze_single_repo, h]

/-- Witness for the amended name-validation claim at concrete candidates. -/
theorem analyze_single_repo_name_validation_witness :
    analyze_single_repo ⟨0, .ok {}, none⟩ { full_name := some "ab" } {} =
      (none, {}) ∧
    ((analyze_single_repo ⟨0, .ok {}, none⟩
        { full_name := some "c/d" } {}).1).isSome = true :=
  ⟨analyze_single_repo_name_validation.1 ⟨0, .ok {}, none⟩
      { full_name := some "ab" } {} (by decide),
   analyze_single_repo_name_validation.2 ⟨0, .ok {}, none⟩
      { full_name := some "c/d" } {} (by decide)⟩

/-! ### Claim C9 (staging upsert idempotence) -/

theorem store_in_staging_count (now : Int) (repo : EnrichedRepo)
    (table : List StagingRow)
    (h : table.countP (fun r => r.repo_full_name == repo.repo_full_name) ≤ 1) :
    (store_in_staging now repo table).countP
      (fun r => r.repo_full_name == repo.repo_full_name) = 1 := by
  by_cases hany : table.any (fun r => r.repo_full_name == repo.repo_full_name) = true
  · simp only [store_in_staging, if_pos hany]
    rw [List.countP_map]
    have hsame : ∀ r ∈ table,
        (((fun r : StagingRow => r.repo_full_name == repo.repo_full_name) ∘
          (fun r : StagingRow =>
            if r.repo_full_name == repo.repo_full_name then
              { r with stars := repo.stars, updated_at := repo.updated_at,
                       uses_render := repo.uses_render,
                       readme_content := repo.readme_content,
                       data_quality_score := repo.data_quality_score,
                       loaded_at := now }
            else r)) r = true ↔
        (fun r : StagingRow => r.repo_full_name == repo.repo_full_name) r = true) := by
      intro r hr
      by_cases hp : r.repo_full_name = repo.repo_full_name <;> simp [hp]
    rw [List.countP_congr hsame]
    obtain ⟨x, hx, hpx⟩ := List.any_eq_true.mp hany
    have hpos : 0 < table.countP
        (fun r => r.repo_full_name == repo.repo_full_name) :=
      List.countP_pos_iff.mpr ⟨x, hx, hpx⟩
    omega
  · simp only [store_in_staging, if_neg hany]
    rw [List.countP_append]
    have hzero : table.countP
        (fun r => r.repo_full_name == repo.repo_full_name) = 0 := by
      rw [List.countP_eq_zero]
      intro a ha
      have hfalse := List.any_eq_false.mp (Bool.not_eq_true _ |>.mp hany)
      exact hfalse a ha
    rw [hzero]
    simp [stagingRowOf]

theorem store_in_staging_latest (now : Int) (repo : EnrichedRepo)
    (table : List StagingRow) :
    ∀ r ∈ store_in_staging now repo table,
      r.repo_full_name = repo.repo_full_name →
        r.stars = repo.stars ∧ r.updated_at = repo.updated_at ∧
        r.uses_render = repo.uses_render ∧
        r.readme_content = repo.readme_content ∧
        r.data_quality_score = repo.data_quality_score ∧
        r.loaded_at = now := by
  intro r hr hname
  by_cases hany : table.any (fun r => r.repo_full_name == repo.repo_full_name) = true
  · simp only [store_in_staging, if_pos hany] at hr
    obtain ⟨x, hx, hfx⟩ := List.mem_map.mp hr
    by_cases hpx : x.repo_full_name == repo.repo_full_name
    · rw [if_pos hpx] at hfx
      subst hfx
      exact ⟨rfl, rfl, rfl, rfl, rfl, rfl⟩
    · rw [if_neg hpx] at hfx
      subst hfx
      exact absurd (beq_iff_eq.mpr hname) hpx
  · simp only [store_in_staging, if_neg hany] at hr
    rcases List.mem_append.mp hr with hr | hr
    · have hfalse := List.any_eq_false.mp (Bool.not_eq_true _ |>.mp hany)
      exact absurd (beq_iff_eq.mpr hname) (hfalse r hr)
    · rw [List.mem_singleton.mp hr]
      exact ⟨rfl, rfl, rfl, rfl, rfl, rfl⟩

/-- Claim C9: writing the same enriched record to staging twice (identical
full name) leaves exactly one row for that full name, and its mutable
fields (stars, update timestamp, README content, quality score) equal the
values of the latest write.  The hypothesis is the staging table's unique
key on repo_full_name. -/
theorem store_in_staging_idempotent (now1 now2 : Int) (repo : EnrichedRepo)
    (table : List StagingRow)
    (h : table.countP (fun r => r.repo_full_name == repo.repo_full_name) ≤ 1) :
    (store_in_staging now2 repo (store_in_staging now1 repo table)).countP
        (fun r => r.repo_full_name == repo.repo_full_name) = 1 ∧
    ∀ r ∈ store_in_staging now2 repo (store_in_staging now1 repo table),
      r.repo_full_name = repo.repo_full_name →
        r.stars = repo.stars ∧ r.updated_at = repo.updated_at ∧
        r.readme_content = repo.readme_content ∧
        r.data_quality_score = repo.data_quality_score := by
  have h1 := store_in_staging_count now1 repo table h
  refine ⟨store_in_staging_count now2 repo _ (le_of_eq h1), ?_⟩
  intro r hr hname
  have hfields := store_in_staging_latest now2 repo _ r hr hname
  exact ⟨hfields.1, hfields.2.1, hfields.2.2.2.1, hfields.2.2.2.2.1⟩

/-- Witness for the staging idempotence claim: a double write into an empty
staging table. -/
theorem store_in_staging_idempotent_witness :
    (store_in_staging 5 { repo_full_name := "a/b" }
        (store_in_staging 3 { repo_full_name := "a/b" } [])).countP
      (fun r => r.repo_full_name == ("a/b" : String)) = 1 :=
  (store_in_staging_idempotent 3 5 { repo_full_name := "a/b" } []
    (by simp)).1

/-! ### Claim C6 (partial failure containment in the batch orchestrator) -/

theorem chunk_list_flatten {α : Type} (size : Nat) (l : List α) :
    (chunk_list size l).flatten = l := by
  match l with
  | [] => simp [chunk_list]
  | x :: xs =>
    simp only [chunk_list, List.flatten_cons]
    rw [chunk_list_flatten size (xs.drop (size - 1))]
    rw [List.cons_append, List.take_append_drop]
termination_by l.length
decreasing_by simp [List.length_drop]; omega

theorem foldl_append_of_map {β γ : Type} (f : γ → List β) (L : List γ)
    (acc : List β) :
    L.foldl (fun a b => a ++ f b) acc = acc ++ (L.map f).flatten := by
  induction L generalizing acc with
  | nil => simp
  | cons b t ih =>
    simp only [List.foldl_cons, List.map_cons, List.flatten_cons, ih,
      List.append_assoc]

theorem flatten_map_filterMap {α β : Type} (g : α → Option β) (L : List (List α)) :
    (L.map (fun l => l.filterMap g)).flatten = L.flatten.filterMap g := by
  induction L with
  | nil => simp
  | cons l t ih =>
    simp only [List.map_cons, List.flatten_cons, List.filterMap_append, ih]

theorem analyze_repo_batch_eq {α : Type} (run : α → Except Unit (Option Summary))
    (repos : List α) :
    analyze_repo_batch run repos =
      repos.filterMap (fun r =>
        match run r with
        | .ok (some s) => some s
        | _ => none) := by
  unfold analyze_repo_batch
  refine (foldl_append_of_map
    (fun batch : List α => collectBatchResults (batch.map run))
    (chunk_list 10 repos) []).trans ?_
  rw [List.nil_append]
  have hc : (chunk_list 10 repos).map
      (fun batch : List α => collectBatchResults (batch.map run)) =
    (chunk_list 10 repos).map (fun batch : List α => batch.filterMap (fun r =>
        match run r with
        | .ok (some s) => some s
        | _ => none)) := by
    apply List.map_congr_left
    intro batch _
    simp only [collectBatchResults, List.filterMap_map]
    rfl
  rw [hc, flatten_map_filterMap, chunk_list_flatten]

/-- Claim C6: an exception in one analysis task is dropped at the task
boundary without affecting siblings or later chunks — the orchestrator
returns exactly the successful minimal summaries, independently of the
chunking; in particular a chunk of 10 candidates where task 3 raises
yields 9 summaries and no abort. -/
theorem analyze_repo_batch_partial_failure :
    (∀ (α : Type) (run : α → Except Unit (Option Summary)) (repos : List α),
        analyze_repo_batch run repos =
          repos.filterMap (fun r =>
            match run r with
            | .ok (some s) => some s
            | _ => none)) ∧
    (analyze_repo_batch
        (fun n : Nat =>
          if n == 3 then .error ()
          else .ok (some { repo_full_name := "r", language := some "Go",
                           stars := (n : Int) }))
        [1, 2, 3, 4, 5, 6, 7, 8, 9, 10]).length = 9 := by
  refine ⟨fun α run repos => analyze_repo_batch_eq run repos, ?_⟩
  rw [analyze_repo_batch_eq]
  decide

/-! ### Claim C7 (API client never propagates expected failures) -/

theorem apiCallFrom_never_raises {α : Type}
    (fetch : Nat → Except PyErr (HttpResponse α)) :
    ∀ (remaining attempt : Nat), ∃ v, apiCallFrom fetch attempt remaining = .ok v := by
  intro remaining
  induction remaining with
  | zero => intro attempt; exact ⟨none, rfl⟩
  | succ r ih =>
    intro attempt
    rcases hf : fetch attempt with e | resp
    · rcases e with _ | _ <;> simp only [apiCallFrom, hf] <;> split_ifs <;>
        first
        | exact ih (attempt + 1)
        | exact ⟨none, rfl⟩
    · rcases hstep : apiAttemptStep resp (r != 0) with e | step
      · rcases e with _ | _ <;> simp only [apiCallFrom, hf, hstep] <;>
          split_ifs <;>
          first
          | exact ih (attempt + 1)
          | exact ⟨none, rfl⟩
      · rcases step with v | _ <;> simp only [apiCallFrom, hf, hstep]
        · exact ⟨v, rfl⟩
        · exact ih (attempt + 1)

/-- Claim C7: the API client converts every expected failure mode into an
absent result instead of a raised exception — a 404 returns absent
immediately (whatever later attempts would return, so no retry happens),
422 and rate-limited or insufficient-scope 403 return absent, exhausting
all three attempts on transient raised errors returns absent, and
get_file_contents behaves the same way. -/
theorem api_client_soft_failure :
    (∀ (α : Type) (fetch : Nat → Except PyErr (HttpResponse α)) (n : Nat),
        ∃ v, api_call fetch n = .ok v) ∧
    (∀ (α : Type) (resp : HttpResponse α)
        (fetch : Nat → Except PyErr (HttpResponse α)),
        resp.status = 404 →
          api_call (fun i => if i == 0 then .ok resp else fetch i) 3 = .ok none) ∧
    (∀ (α : Type) (resp : HttpResponse α)
        (fetch : Nat → Except PyErr (HttpResponse α)),
        resp.status = 422 →
          api_call (fun i => if i == 0 then .ok resp else fetch i) 3 = .ok none) ∧
    (∀ (α : Type) (resp : HttpResponse α)
        (fetch : Nat → Except PyErr (HttpResponse α)),
        resp.status = 403 →
          (resp.bodyRateLimit = true ∨ resp.bodyInsufficient = true) →
          api_call (fun i => if i == 0 then .ok resp else fetch i) 3 = .ok none) ∧
    (∀ (α : Type) (fetch : Nat → Except PyErr (HttpResponse α)),
        (∀ i, i < 3 → ∃ e, fetch i = .error e) →
          api_call fetch 3 = .ok none) ∧
    (∀ (α : Type) (resp : HttpResponse α)
        (fetch : Nat → Except PyErr (HttpResponse α))
        (decodeContent : α → Option String),
        resp.status = 404 →
          get_file_contents (fun i => if i == 0 then .ok resp else fetch i)
            decodeContent = none) := by
  have h404 : ∀ (α : Type) (resp : HttpResponse α)
      (fetch : Nat → Except PyErr (HttpResponse α)),
      resp.status = 404 →
        api_call (fun i => if i == 0 then .ok resp else fetch i) 3 = .ok none := by
    intro α resp fetch h
    simp [api_call, apiCallFrom, apiAttemptStep, h]
  refine ⟨fun α fetch n => apiCallFrom_never_raises fetch n 0, h404, ?_, ?_, ?_, ?_⟩
  · intro α resp fetch h
    simp [api_call, apiCallFrom, apiAttemptStep, h]
  · intro α resp fetch h hbody
    rcases hbody with hb | hb
    · simp [api_call, apiCallFrom, apiAttemptStep, h, hb]
    · by_cases hrl : resp.bodyRateLimit <;>
        simp [api_call, apiCallFrom, apiAttemptStep, h, hb, hrl]
  · intro α fetch h
    obtain ⟨e0, h0⟩ := h 0 (by norm_num)
    obtain ⟨e1, h1⟩ := h 1 (by norm_num)
    obtain ⟨e2, h2⟩ := h 2 (by norm_num)
    simp only [api_call, apiCallFrom, h0, h1, h2]
    rcases e0 with _ | _ <;> rcases e1 with _ | _ <;> rcases e2 with _ | _ <;> rfl
  · intro α resp fetch decodeContent h
    simp only [get_file_contents, h404 α resp fetch h]

/-- Witness for the API-client claim: a 404 response and three straight
timeouts both yield an absent result. -/
theorem api_client_soft_failure_witness :
    api_call (fun i => if i == 0
        then (.ok ⟨404, false, false, none⟩ : Except PyErr (HttpResponse Unit))
        else .ok ⟨404, false, false, none⟩) 3 = .ok none ∧
    api_call (fun _ : Nat =>
        (.error .timeoutErr : Except PyErr (HttpResponse Unit))) 3 = .ok none :=
  ⟨api_client_soft_failure.2.1 Unit ⟨404, false, false, none⟩
      (fun _ => .ok ⟨404, false, false, none⟩) rfl,
   api_client_soft_failure.2.2.2.2.1 Unit (fun _ => .error .timeoutErr)
      (fun _ _ => ⟨.timeoutErr, rfl⟩)⟩

/-! ### Claim C8 (fact rows are gated on both dimension lookups; per-row
failures do not abort the loop) -/

theorem upsert_dim_facts (st : AnalyticsState) (row : StagedRow) :
    (upsert_dim st row).facts = st.facts := by
  unfold upsert_dim
  split_ifs <;> rfl

theorem render_usage_step_facts (env : LoadEnv) (today : Int) (rk : Nat)
    (row : StagedRow) (s : AnalyticsState) (service_type : String) :
    (render_usage_step env today rk row s service_type).facts = s.facts := by
  simp only [render_usage_step]
  split_ifs <;> rfl

theorem insert_render_usage_facts (env : LoadEnv) (today : Int) (rk : Nat)
    (row : StagedRow) (st : AnalyticsState) :
    (insert_render_usage env today rk row st).facts = st.facts := by
  unfold insert_render_usage
  generalize row.render_services = l
  induction l generalizing st with
  | nil => rfl
  | cons a t ih =>
    simp only [List.foldl_cons, ih, render_usage_step_facts]

theorem load_rows_from_append (env : LoadEnv) (maxG maxR now today : Int)
    (rows1 rows2 : List StagedRow) :
    ∀ (i : Nat) (st : AnalyticsState),
      load_rows_from env maxG maxR now today i (rows1 ++ rows2) st =
        load_rows_from env maxG maxR now today (i + rows1.length) rows2
          (load_rows_from env maxG maxR now today i rows1 st) := by
  induction rows1 with
  | nil => intro i st; simp [load_rows_from]
  | cons r t ih =>
    intro i st
    simp only [List.cons_append, load_rows_from, List.length_cons,
      List.append_eq]
    rw [ih (i + 1)]
    have harith : i + 1 + t.length = i + (t.length + 1) := by omega
    rw [harith]

/-- Claim C8: during the analytics load, a fact snapshot is written only
when the repository-dimension key and the language-dimension key lookups
both return truthy keys — the fact row carries exactly the looked-up keys;
a row with a falsy name, a database error, or a missing key leaves the
fact table untouched; and the row loop always proceeds to the remaining
rows regardless of what happened to earlier ones. -/
theorem load_fact_gating_and_containment :
    (∀ (env : LoadEnv) (maxG maxR now today : Int) (st : AnalyticsState)
        (idx : Nat) (repo : StagedRow),
      (repo.repo_full_name = "" →
        load_row env maxG maxR now today st idx repo = st) ∧
      (env.err repo = some .atDim →
        load_row env maxG maxR now today st idx repo = st) ∧
      (repo.repo_full_name ≠ "" → env.err repo ≠ some .atDim →
        ((keyFalsy (dim_repo_key (upsert_dim st repo).dims repo.repo_full_name) ||
          keyFalsy (language_key_lookup env.language_table repo.language)) = true →
          load_row env maxG maxR now today st idx repo = upsert_dim st repo ∧
          (load_row env maxG maxR now today st idx repo).facts = st.facts) ∧
        (env.err repo = some .atFact →
          (load_row env maxG maxR now today st idx repo).facts = st.facts) ∧
        (∀ rk lk : Nat,
          dim_repo_key (upsert_dim st repo).dims repo.repo_full_name = some rk →
          language_key_lookup env.language_table repo.language = some lk →
          rk ≠ 0 → lk ≠ 0 → env.err repo ≠ some .atFact →
          (load_row env maxG maxR now today st idx repo).facts =
            upsert_fact st.facts
              { repo_key := rk, language_key := lk, snapshot_date := today,
                stars := repo.stars, star_velocity := 0, activity_score := 0,
                momentum_score := momentum_score maxG maxR now repo,
                rank_overall := idx, rank_in_language := none })) ) ∧
    (∀ (env : LoadEnv) (maxG maxR now today : Int) (i : Nat)
        (rows1 rows2 : List StagedRow) (st : AnalyticsState),
      load_rows_from env maxG maxR now today i (rows1 ++ rows2) st =
        load_rows_from env maxG maxR now today (i + rows1.length) rows2
          (load_rows_from env maxG maxR now today i rows1 st)) := by
  refine ⟨?_, fun env maxG maxR now today i rows1 rows2 st =>
    load_rows_from_append env maxG maxR now today rows1 rows2 i st⟩
  intro env maxG maxR now today st idx repo
  refine ⟨?_, ?_, ?_⟩
  · intro h
    simp [load_row, h]
  · intro h
    by_cases hn : repo.repo_full_name = "" <;> simp [load_row, hn, h]
  · intro hn hd
    refine ⟨?_, ?_, ?_⟩
    · intro hk
      constructor <;> simp [load_row, hn, hd, hk, upsert_dim_facts]
    · intro hf
      have hd' : env.err repo = some FailPoint.atFact := hf
      by_cases hk : (keyFalsy (dim_repo_key (upsert_dim st repo).dims
            repo.repo_full_name) ||
          keyFalsy (language_key_lookup env.language_table repo.language)) = true <;>
        simp [load_row, hn, hd, hk, hd', upsert_dim_facts]
    · intro rk lk hrk hlk hrk0 hlk0 hfact
      have hk : (keyFalsy (dim_repo_key (upsert_dim st repo).dims
            repo.repo_full_name) ||
          keyFalsy (language_key_lookup env.language_table repo.language)) = false := by
        simp [hrk, hlk, keyFalsy, hrk0, hlk0]
      by_cases hur : repo.uses_render = true <;>
        by_cases hsv : repo.render_services = [] <;>
        simp [load_row, hn, hd, hk, hrk, hlk, hfact, keyFalsy, hrk0, hlk0,
          hur, hsv, upsert_dim_facts, insert_render_usage_facts]

/-- A load environment with one known language for the load-gating witness. -/
def c8Env : LoadEnv :=
  { language_table := [("Python", 1)] }

/-- A staged row with a known language for the load-gating witness. -/
def c8Row : StagedRow :=
  { repo_full_name := "a/b", language := some "Python", stars := 5 }

/-- Witness for the load-gating claim: a falsy name leaves the state
untouched, a fully successful row writes the fact with the looked-up
keys, and the loop decomposes over list concatenation. -/
theorem load_fact_gating_witness :
    load_row {} 1 1 0 0 {} 1 { repo_full_name := "" } = {} ∧
    (load_row c8Env 1 1 0 0 {} 1 c8Row).facts =
      upsert_fact []
        { repo_key := 1, language_key := 1, snapshot_date := 0,
          stars := c8Row.stars, star_velocity := 0, activity_score := 0,
          momentum_score := momentum_score 1 1 0 c8Row,
          rank_overall := 1, rank_in_language := none } ∧
    load_rows_from {} 1 1 0 0 1 ([c8Row] ++ []) {} =
      load_rows_from {} 1 1 0 0 (1 + [c8Row].length) []
        (load_rows_from {} 1 1 0 0 1 [c8Row] {}) :=
  ⟨(load_fact_gating_and_containment.1 {} 1 1 0 0 {} 1
      { repo_full_name := "" }).1 rfl,
   ((load_fact_gating_and_containment.1 c8Env 1 1 0 0 {} 1 c8Row).2.2
      (by decide) (by decide)).2.2 1 1 (by decide) (by decide)
      (by decide) (by decide) (by decide),
   load_fact_gating_and_containment.2 {} 1 1 0 0 1 [c8Row] [] {}⟩
